import Mathlib

/-!
Shallow embedding of two modules of the repository:
`zerver/views/upload.py` (file serving and upload endpoints) and
`zerver/models/custom_profile_fields.py` (custom profile field schema).

External collaborators that are not part of the repository excerpt
(storage-path lookups, the attachment-authorization oracle, signed-URL
generation, quota accounting, Django settings) are fields of an `Env`
record, so theorems quantify over their behaviour.  Framework helpers
(`django.utils.cache.patch_cache_control`, the default headers of a fresh
`HttpResponse`) are modelled by their documented behaviour at the call
sites that occur in the source.
-/

/-- HTTP headers of a response, as an association list (name, value). -/
abbrev Headers := List (String × String)

/-- Set a header, overwriting any existing entry with the same name
(Django `response[k] = v`). -/
def setHeader (hs : Headers) (k v : String) : Headers :=
  if hs.any (fun e => e.1 == k) then hs.map (fun e => if e.1 == k then (k, v) else e)
  else hs ++ [(k, v)]

/-- Delete a header (Django `del response[k]`). -/
def delHeader (hs : Headers) (k : String) : Headers :=
  hs.filter (fun e => e.1 != k)

/-- Read a header value. -/
def lookupHeader (hs : Headers) (k : String) : Option String :=
  match hs.find? (fun e => e.1 == k) with
  | some e => some e.2
  | none => none

/-- A single-quote character as a string (code point 39). -/
def squote : String := String.singleton (Char.ofNat 39)

/-- UTF-8 encoding of one character, as its list of byte values. -/
def utf8Bytes (c : Char) : List Nat :=
  let n := c.toNat
  if n < 0x80 then [n]
  else if n < 0x800 then
    [0xC0 ||| (n >>> 6), 0x80 ||| (n &&& 0x3F)]
  else if n < 0x10000 then
    [0xE0 ||| (n >>> 12), 0x80 ||| ((n >>> 6) &&& 0x3F), 0x80 ||| (n &&& 0x3F)]
  else
    [0xF0 ||| (n >>> 18), 0x80 ||| ((n >>> 12) &&& 0x3F),
     0x80 ||| ((n >>> 6) &&& 0x3F), 0x80 ||| (n &&& 0x3F)]

/-- Bytes left unescaped by `urllib.parse.quote` with its default `safe`
argument: ASCII letters, digits, and the characters `_` `.` `-` `~` `/`. -/
def isSafeByte (b : Nat) : Bool :=
  (65 ≤ b && b ≤ 90) || (97 ≤ b && b ≤ 122) || (48 ≤ b && b ≤ 57) ||
  b == 95 || b == 46 || b == 45 || b == 126 || b == 47

/-- Upper-case hexadecimal digit for a value below 16. -/
def hexDigit (n : Nat) : Char :=
  if n < 10 then Char.ofNat (48 + n) else Char.ofNat (55 + n)

/-- Percent escape `%XX` of one byte value. -/
def percentByte (b : Nat) : String :=
  String.singleton '%' ++ String.singleton (hexDigit (b / 16)) ++
    String.singleton (hexDigit (b % 16))

/-- One byte of `urllib.parse.quote` output. -/
def quoteByte (b : Nat) : String :=
  if isSafeByte b then String.singleton (Char.ofNat b) else percentByte b

/-- Python `urllib.parse.quote(s)`: percent-encode the UTF-8 bytes of `s`,
leaving the default safe characters alone. -/
def percentQuote (s : String) : String :=
  String.join (((s.data.map utf8Bytes).flatten).map quoteByte)

/-- The characters before the first occurrence of `sep`. -/
def beforeChar (sep : Char) (l : List Char) : List Char :=
  l.takeWhile (fun c => c != sep)

/-- The path component of `urllib.parse.urlparse(url)`: everything before
the first fragment delimiter (`#`) and then before the first query
delimiter (`?`).  (Scheme and network-location splitting is omitted: the
source only consumes `os.path.basename` of the path, and the inputs at
the call site are local filesystem paths.) -/
def urlparsePath (url : String) : String :=
  String.mk (beforeChar '?' (beforeChar '#' url.data))

/-- Python `str.split(sep)` for a one-character separator, by structural
recursion on the character list; the result is always non-empty. -/
def splitOnChar (sep : Char) : List Char → List String
  | [] => [""]
  | c :: cs =>
    let rest := splitOnChar sep cs
    if c = sep then "" :: rest
    else (String.singleton c ++ rest.headD ("")) :: rest.tail

/-- The last element of a list of strings (Python `[-1]` on the
never-empty result of `split`), defaulting to `""`. -/
def lastStr : List String → String
  | [] => ""
  | [x] => x
  | _ :: x :: xs => lastStr (x :: xs)

/-- Python `os.path.basename`: the part of the path after the last `/`
(`path.split("/")[-1]`). -/
def basename (p : String) : String :=
  lastStr (splitOnChar '/' p.data)

/-- Python `str.replace(old, new)` for a single-character `old` pattern,
written as structural recursion on the character list. -/
def replaceCharList (c : Char) (r : String) : List Char → String
  | [] => ""
  | x :: xs => (if x = c then r else String.singleton x) ++ replaceCharList c r xs

/-- Python `s.replace(old, new)` with a single-character `old`. -/
def replaceChar (s : String) (c : Char) (r : String) : String :=
  replaceCharList c r s.data

/-- Pure-ASCII test: `filename.encode("ascii")` succeeds exactly when
every code point is below 128. -/
def isPureAscii (s : String) : Bool :=
  s.data.all (fun c => c.toNat < 128)

/-- Single-pass description of the claimed escaping: a backslash becomes
two backslashes, a double quote becomes backslash-quote, anything else is
unchanged. -/
def escChar (c : Char) : String :=
  if c = '\\' then "\\\\" else if c = '\"' then "\\\"" else String.singleton c

/-- Map of `escChar` over a character list. -/
def escapeChars : List Char → String
  | [] => ""
  | x :: xs => escChar x ++ escapeChars xs

/-- The `file_expr` part of `patch_disposition_header`: `filename="..."`
with backslash-escaped backslashes and quotes (backslashes first) when
the name is pure ASCII, and the RFC 8187 `filename*=utf-8''...` form
otherwise. -/
def dispositionFileExpr (filename : String) : String :=
  if isPureAscii filename then
    "filename=\"" ++ replaceChar (replaceChar filename '\\' ("\\\\")) '\"' ("\\\"") ++ "\""
  else
    "filename*=utf-8" ++ squote ++ squote ++ percentQuote filename

/-- Source `patch_disposition_header(response, url, is_attachment)` from
`zerver/views/upload.py`: set the `Content-Disposition` header from the
basename of the URL path. -/
def patch_disposition_header (hs : Headers) (url : String) (is_attachment : Bool) : Headers :=
  let disposition := if is_attachment then "attachment" else "inline"
  setHeader hs ("Content-Disposition")
    (disposition ++ "; " ++ dispositionFileExpr (basename (urlparsePath url)))

/-- Source `internal_nginx_redirect(internal_path)`: a fresh Django
`HttpResponse` (whose only default header is
`Content-Type: text/html; charset=utf-8`) with `X-Accel-Redirect` set to
the internal path and the `Content-Type` header deleted. -/
def internal_nginx_redirect (internal_path : String) : Headers :=
  delHeader
    (setHeader [("Content-Type", "text/html; charset=utf-8")]
      ("X-Accel-Redirect") internal_path)
    ("Content-Type")

/-- Django `django.utils.cache.patch_cache_control(response, private=True,
immutable=True)` at the source call sites, where the response has no
prior `Cache-Control` header: sets `Cache-Control: private, immutable`. -/
def patch_cache_control (hs : Headers) : Headers :=
  setHeader hs ("Cache-Control") ("private, immutable")

/-- Python `mimetype in INLINE_MIME_TYPES` where `mimetype` may be `None`
and the allowlist is a list of strings: `None` is never a member. -/
def optMemList (m : Option String) (l : List String) : Bool :=
  match m with
  | none => false
  | some s => l.contains s

/-- The terminal HTTP responses produced by the serving code. -/
inductive ServeResult where
  /-- Source `HttpResponseNotFound(body)` -/
  | notFound (body : String)
  /-- Source `HttpResponseForbidden(body)` -/
  | forbidden (body : String)
  /-- Source `json_success(request, data=...)` -/
  | jsonSuccess (data : List (String × String))
  /-- Source `redirect(url)` -/
  | redirect (url : String)
  /-- A `FileResponse` streaming a local file (development mode); the
  header list records the headers set by the source on the response. -/
  | fileResponse (localPath : String) (asAttachment : Bool) (headers : Headers)
  /-- A plain `HttpResponse` with the given headers (nginx redirect). -/
  | response (headers : Headers)
deriving DecidableEq

/-- An uploaded file; only its size is consumed by the source. -/
structure UploadedFile where
  size : Nat
deriving DecidableEq

/-- Result of the upload endpoint: a raised `JsonableError` or a
`json_success` body carrying the opaque locator. -/
inductive UploadResult where
  | error (msg : String)
  | success (uri : String)
deriving DecidableEq

/-- The external collaborators and Django settings consumed by
`zerver/views/upload.py`.  Per-request fixed arguments of the oracles
(the requesting principal and the realm) are folded into the closures. -/
structure Env where
  /-- Source `settings.LOCAL_UPLOADS_DIR` -/
  localUploadsDir : Option String
  /-- Source `settings.DEVELOPMENT` -/
  development : Bool
  /-- Source `settings.MAX_FILE_UPLOAD_SIZE` (in MiB) -/
  maxFileUploadSize : Nat
  /-- Source `INLINE_MIME_TYPES` from `zerver.lib.upload.base` -/
  inlineMimeTypes : List String
  /-- Source `get_local_file_path` -/
  getLocalFilePath : String → Option String
  /-- Source `generate_unauthed_file_access_url` -/
  generateUnauthedFileAccessUrl : String → String
  /-- Source `get_signed_upload_url(path, download=...)` -/
  getSignedUploadUrl : String → Bool → String
  /-- Source `get_local_file_path_id_from_token` -/
  getLocalFilePathIdFromToken : String → Option String
  /-- Python `mimetypes.guess_type`, first component -/
  guessType : String → Option String
  /-- Source `validate_attachment_request(maybe_user_profile, path_id, realm)`:
  `None` for unknown path, `False` for forbidden, `True` for allowed. -/
  validateAttachmentRequest : String → Option Bool
  /-- Source `check_upload_within_quota(realm, size)`; raises on quota excess. -/
  checkUploadWithinQuota : Nat → Except String Unit
  /-- Source `upload_message_image_from_request`, returning the locator. -/
  uploadMessageImageFromRequest : Nat → String

/-- Source `serve_s3(request, url_path, url_only, download)`. -/
def serve_s3 (env : Env) (url_path : String) (url_only : Bool)
    (download : Bool := false) : ServeResult :=
  let url := env.getSignedUploadUrl url_path download
  if url_only then .jsonSuccess [("url", url)]
  else .redirect url

/-- Source `serve_local(request, path_id, url_only, download)`. -/
def serve_local (env : Env) (path_id : String) (url_only : Bool)
    (download : Bool := false) : ServeResult :=
  match env.getLocalFilePath path_id with
  | none => .notFound ("<p>File not found</p>")
  | some local_path =>
    if url_only then
      .jsonSuccess [("url", env.generateUnauthedFileAccessUrl path_id)]
    else
      let mimetype := env.guessType local_path
      let attachment := download || !(optMemList mimetype env.inlineMimeTypes)
      if env.development then
        .fileResponse local_path attachment (patch_cache_control [])
      else
        .response (patch_cache_control
          (patch_disposition_header
            (internal_nginx_redirect (percentQuote ("/internal/uploads/" ++ path_id)))
            local_path attachment))

/-- Source `serve_file(request, maybe_user_profile, realm_id_str, filename,
url_only, download)`: build the path id, authorize, dispatch to the
configured backend.  (Tenant resolution via
`get_valid_realm_from_request` is folded into
`env.validateAttachmentRequest`, which receives the realm.) -/
def serve_file (env : Env) (realm_id_str filename : String)
    (url_only : Bool := false) (download : Bool := false) : ServeResult :=
  let path_id := realm_id_str ++ "/" ++ filename
  match env.validateAttachmentRequest path_id with
  | none => .notFound ("<p>File not found.</p>")
  | some false => .forbidden ("<p>You are not authorized to view this file.</p>")
  | some true =>
    if env.localUploadsDir.isSome then serve_local env path_id url_only download
    else serve_s3 env path_id url_only download

/-- Source `serve_local_file_unauthed(request, token, filename)`: raised
`JsonableError`s become `Except.error` with the error message. -/
def serve_local_file_unauthed (env : Env) (token filename : String) :
    Except String ServeResult :=
  match env.getLocalFilePathIdFromToken token with
  | none => .error ("Invalid token")
  | some path_id =>
    if lastStr (splitOnChar '/' path_id.data) != filename then
      .error ("Invalid filename")
    else
      .ok (serve_local env path_id false)

/-- The size-limit error message of `upload_file_backend`. -/
def sizeLimitMsg (env : Env) : String :=
  "Uploaded file is larger than the allowed limit of " ++
    toString env.maxFileUploadSize ++ " MiB"

/-- Source `upload_file_backend(request, user_profile)`; `files` is the list of
values of `request.FILES`. -/
def upload_file_backend (env : Env) (files : List UploadedFile) : UploadResult :=
  if files.length = 0 then
    .error ("You must specify a file to upload")
  else if files.length ≠ 1 then
    .error ("You may only upload one file at a time")
  else
    let user_file := files.headD ⟨0⟩
    let file_size := user_file.size
    if env.maxFileUploadSize * 1024 * 1024 < file_size then
      .error (sizeLimitMsg env)
    else
      match env.checkUploadWithinQuota file_size with
      | .error e => .error e
      | .ok _ => .success (env.uploadMessageImageFromRequest file_size)

/-! ## `zerver/models/custom_profile_fields.py` -/

/-- A user row, with the fields consumed by `check_valid_user_ids`. -/
structure UserProfileM where
  id : Int
  is_active : Bool
  is_bot : Bool
deriving DecidableEq

/-- A realm (tenant) together with its user rows;
`get_user_profile_by_id_in_realm` becomes a lookup in `users`. -/
structure RealmM where
  id : Int
  users : List UserProfileM
deriving DecidableEq

/-- The loop body of `check_valid_user_ids`: walk the IDs, raising
`ValidationError` (as `Except.error`) at the first offending one. -/
def checkUserIdsLoop (realm : RealmM) (allow_deactivated : Bool) :
    List Int → Except String Unit
  | [] => .ok ()
  | user_id :: rest =>
    match realm.users.find? (fun u => u.id == user_id) with
    | none => .error ("Invalid user ID: " ++ toString user_id)
    | some user_profile =>
      if !allow_deactivated && !user_profile.is_active then
        .error ("User with ID " ++ toString user_id ++ " is deactivated")
      else if user_profile.is_bot then
        .error ("User with ID " ++ toString user_id ++ " is a bot")
      else checkUserIdsLoop realm allow_deactivated rest

/-- Source `check_valid_user_ids(realm_id, val, allow_deactivated)`, applied to
an input that already passed `check_list(check_int)` (so `val` is a list
of integers) and with the `Realm.objects.get(id=realm_id)` row passed
directly.  Returns the input list when every ID passes. -/
def check_valid_user_ids (realm : RealmM) (user_ids : List Int)
    (allow_deactivated : Bool := false) : Except String (List Int) :=
  match checkUserIdsLoop realm allow_deactivated user_ids with
  | .error e => .error e
  | .ok _ => .ok user_ids

/-- The validator functions referenced by the field-type registry,
as symbolic tags (their bodies live outside this excerpt). -/
inductive ValidatorTag where
  | check_short_string
  | check_long_string
  | check_date
  | check_url
  | validate_select_field
  | check_valid_user_ids
deriving DecidableEq

/-- The converter functions referenced by the registry (`str` or
`orjson.loads`). -/
inductive ConverterTag where
  | strConv
  | orjson_loads
deriving DecidableEq

/-- One registry entry: `(field type, display name, validator, converter,
keyword)`. -/
structure FieldElement where
  ftype : Nat
  displayName : String
  validator : ValidatorTag
  converter : ConverterTag
  keyword : String
deriving DecidableEq

/-- Field-type enum values of `CustomProfileField`. -/
def SHORT_TEXT : Nat := 1

def LONG_TEXT : Nat := 2

def SELECT : Nat := 3

def DATE : Nat := 4

def URL : Nat := 5

def USER : Nat := 6

def EXTERNAL_ACCOUNT : Nat := 7

def PRONOUNS : Nat := 8

/-- All eight field-type enum values. -/
def fieldTypeEnumValues : List Nat :=
  [SHORT_TEXT, LONG_TEXT, SELECT, DATE, URL, USER, EXTERNAL_ACCOUNT, PRONOUNS]

/-- Source `SELECT_FIELD_TYPE_DATA`. -/
def SELECT_FIELD_TYPE_DATA : List FieldElement :=
  [⟨SELECT, "List of options", .validate_select_field, .strConv, "SELECT"⟩]

/-- Source `USER_FIELD_TYPE_DATA`. -/
def USER_FIELD_TYPE_DATA : List FieldElement :=
  [⟨USER, "Users", .check_valid_user_ids, .orjson_loads, "USER"⟩]

/-- Source `FIELD_TYPE_DATA`: the six value-only field types. -/
def FIELD_TYPE_DATA : List FieldElement :=
  [⟨SHORT_TEXT, "Text (short)", .check_short_string, .strConv, "SHORT_TEXT"⟩,
   ⟨LONG_TEXT, "Text (long)", .check_long_string, .strConv, "LONG_TEXT"⟩,
   ⟨DATE, "Date", .check_date, .strConv, "DATE"⟩,
   ⟨URL, "Link", .check_url, .strConv, "URL"⟩,
   ⟨EXTERNAL_ACCOUNT, "External account", .check_short_string, .strConv, "EXTERNAL_ACCOUNT"⟩,
   ⟨PRONOUNS, "Pronouns", .check_short_string, .strConv, "PRONOUNS"⟩]

/-- Python string comparison (code-point lexicographic `<`) on the
character lists. -/
def strLt : List Char → List Char → Bool
  | _, [] => false
  | [], _ :: _ => true
  | a :: as, b :: bs =>
    if a.toNat < b.toNat then true
    else if b.toNat < a.toNat then false
    else strLt as bs

/-- Insert an entry into a list sorted by display name. -/
def insertByName (e : FieldElement) : List FieldElement → List FieldElement
  | [] => [e]
  | x :: xs =>
    if strLt x.displayName.data e.displayName.data then x :: insertByName e xs
    else e :: x :: xs

/-- Python `sorted(..., key=lambda x: x[1])` by display name (all display
names in the registry are distinct, so stability is irrelevant). -/
def sortByName : List FieldElement → List FieldElement
  | [] => []
  | x :: xs => insertByName x (sortByName xs)

/-- Source `ALL_FIELD_TYPES = sorted([*FIELD_TYPE_DATA, *SELECT_FIELD_TYPE_DATA,
*USER_FIELD_TYPE_DATA], key=lambda x: x[1])`. -/
def ALL_FIELD_TYPES : List FieldElement :=
  sortByName (FIELD_TYPE_DATA ++ SELECT_FIELD_TYPE_DATA ++ USER_FIELD_TYPE_DATA)

/-- Source `FIELD_VALIDATORS = {item[0]: item[2] for item in FIELD_TYPE_DATA}`. -/
def FIELD_VALIDATORS : List (Nat × ValidatorTag) :=
  FIELD_TYPE_DATA.map (fun item => (item.ftype, item.validator))

/-- Source `SELECT_FIELD_VALIDATORS`. -/
def SELECT_FIELD_VALIDATORS : List (Nat × ValidatorTag) :=
  SELECT_FIELD_TYPE_DATA.map (fun item => (item.ftype, item.validator))

/-- Source `USER_FIELD_VALIDATORS`. -/
def USER_FIELD_VALIDATORS : List (Nat × ValidatorTag) :=
  USER_FIELD_TYPE_DATA.map (fun item => (item.ftype, item.validator))

/-- Source `FIELD_CONVERTERS = {item[0]: item[3] for item in ALL_FIELD_TYPES}`. -/
def FIELD_CONVERTERS : List (Nat × ConverterTag) :=
  ALL_FIELD_TYPES.map (fun item => (item.ftype, item.converter))

/-- A value of the dictionary returned by `as_dict`. -/
inductive FieldVal where
  | int (i : Int)
  | str (s : String)
  | bool (b : Bool)
deriving DecidableEq

/-- A `CustomProfileField` row, with the columns consumed by `as_dict`. -/
structure CustomProfileField where
  id : Int
  name : String
  hint : String
  order : Int
  display_in_profile_summary : Bool
  field_type : Nat
  field_data : String
deriving DecidableEq

/-- Source `CustomProfileField.as_dict`: the base six keys, plus
`display_in_profile_summary: True` only when the flag is set. -/
def as_dict (f : CustomProfileField) : List (String × FieldVal) :=
  let data_as_dict : List (String × FieldVal) :=
    [("id", .int f.id),
     ("name", .str f.name),
     ("type", .int f.field_type),
     ("hint", .str f.hint),
     ("field_data", .str f.field_data),
     ("order", .int f.order)]
  if f.display_in_profile_summary then
    data_as_dict ++ [("display_in_profile_summary", .bool true)]
  else
    data_as_dict

/-- Lookup in an `as_dict` result. -/
def dictLookup (d : List (String × FieldVal)) (k : String) : Option FieldVal :=
  match d.find? (fun e => e.1 == k) with
  | some e => some e.2
  | none => none

/-! ## Concrete environments used to evaluate the embedding -/

/-- A concrete environment: local uploads configured, production mode. -/
def envLocal : Env where
  localUploadsDir := some ("/home/zulip/uploads")
  development := false
  maxFileUploadSize := 25
  inlineMimeTypes := ["application/pdf", "image/png", "image/jpeg", "text/plain"]
  getLocalFilePath := fun p =>
    if p == "2/a.txt" then some ("/home/zulip/uploads/files/2/a.txt")
    else if p == "5/abc/doc.pdf" then some ("/home/zulip/uploads/files/5/abc/doc.pdf")
    else none
  generateUnauthedFileAccessUrl := fun p => "/local/uploads/tok123/" ++ basename p
  getSignedUploadUrl := fun p d =>
    "https://bucket.example/" ++ p ++ (if d then "/dl" else "")
  getLocalFilePathIdFromToken := fun t =>
    if t == "tok5" then some ("5/abc/doc.pdf") else none
  guessType := fun p =>
    if p == "/home/zulip/uploads/files/5/abc/doc.pdf" then some ("application/pdf")
    else some ("text/plain")
  validateAttachmentRequest := fun p =>
    if p == "2/a.txt" then some true
    else if p == "2/secret.txt" then some false
    else none
  checkUploadWithinQuota := fun _ => Except.ok ()
  uploadMessageImageFromRequest := fun s => "/user_uploads/2/loc/" ++ toString s

/-- A concrete realm with an active human (10), a deactivated human (11)
and an active bot (12). -/
def realmA : RealmM :=
  ⟨2, [⟨10, true, false⟩, ⟨11, false, false⟩, ⟨12, true, true⟩]⟩

/-! ## Theorems -/

/-- C10: `as_dict` always returns exactly the keys `id`, `name`, `type`,
`hint`, `field_data`, `order`, plus `display_in_profile_summary` (with
value `True`) exactly when the flag is set; when the flag is false the
key is absent. -/
theorem as_dict_keys (f : CustomProfileField) :
    (as_dict f).map Prod.fst =
      ["id", "name", "type", "hint", "field_data", "order"] ++
        (if f.display_in_profile_summary then ["display_in_profile_summary"] else []) ∧
    dictLookup (as_dict f) ("display_in_profile_summary") =
      (if f.display_in_profile_summary then some (FieldVal.bool true) else none) := by
  cases h : f.display_in_profile_summary <;>
    simp [as_dict, dictLookup, h, List.find?]

/-- C7: the field-type registry is total: every enum value has a full
registry tuple in `ALL_FIELD_TYPES` and an entry in `FIELD_CONVERTERS`,
and its validator lives in exactly one of the three shape-specific
validator tables, whose key sets are the six value-only types, `SELECT`,
and `USER` respectively. -/
theorem field_type_registry_complete :
    (∀ t ∈ fieldTypeEnumValues, (FIELD_CONVERTERS.lookup t).isSome = true) ∧
    (∀ t ∈ fieldTypeEnumValues, ∃ e ∈ ALL_FIELD_TYPES, e.ftype = t) ∧
    FIELD_VALIDATORS.map Prod.fst =
      [SHORT_TEXT, LONG_TEXT, DATE, URL, EXTERNAL_ACCOUNT, PRONOUNS] ∧
    SELECT_FIELD_VALIDATORS.map Prod.fst = [SELECT] ∧
    USER_FIELD_VALIDATORS.map Prod.fst = [USER] ∧
    (∀ t ∈ fieldTypeEnumValues,
      (FIELD_VALIDATORS.lookup t).isSome.toNat +
        (SELECT_FIELD_VALIDATORS.lookup t).isSome.toNat +
        (USER_FIELD_VALIDATORS.lookup t).isSome.toNat = 1) := by
  decide

/-- The loop of `check_valid_user_ids` succeeds exactly when every ID
resolves to a user of the realm who is a non-bot and is active unless
deactivated users are allowed. -/
theorem checkUserIdsLoop_ok_iff (realm : RealmM) (allow : Bool) (ids : List Int) :
    checkUserIdsLoop realm allow ids = .ok () ↔
      ∀ i ∈ ids, ∃ u, realm.users.find? (fun v => v.id == i) = some u ∧
        (allow = true ∨ u.is_active = true) ∧ u.is_bot = false := by
  induction ids with
  | nil => simp [checkUserIdsLoop]
  | cons i rest ih =>
    simp only [checkUserIdsLoop, List.forall_mem_cons]
    cases hf : realm.users.find? (fun v => v.id == i) with
    | none => simp [hf]
    | some u =>
      cases allow <;> cases hact : u.is_active <;> cases hbot : u.is_bot <;>
        simp_all [hf]

/-- C3: `check_valid_user_ids` returns the input list unchanged when it
succeeds, and succeeds exactly when every ID resolves to a user of the
realm who is not a bot and is active unless `allow_deactivated` is set
(so a bot ID fails even with `allow_deactivated`, and any other
combination raises a validation error). -/
theorem check_valid_user_ids_spec (realm : RealmM) (ids : List Int) (allow : Bool) :
    (∀ l, check_valid_user_ids realm ids allow = .ok l → l = ids) ∧
    ((∃ l, check_valid_user_ids realm ids allow = .ok l) ↔
      ∀ i ∈ ids, ∃ u, realm.users.find? (fun v => v.id == i) = some u ∧
        (allow = true ∨ u.is_active = true) ∧ u.is_bot = false) := by
  constructor
  · intro l h
    unfold check_valid_user_ids at h
    cases hl : checkUserIdsLoop realm allow ids <;> rw [hl] at h <;>
      simp at h
    exact h.symm
  · rw [← checkUserIdsLoop_ok_iff]
    unfold check_valid_user_ids
    cases hl : checkUserIdsLoop realm allow ids with
    | error e => simp [hl]
    | ok u => cases u; simp

/-- Witness for C3 on `realmA`: the active human list `[10]` validates to
itself. -/
theorem check_valid_user_ids_spec_witness :
    check_valid_user_ids realmA ([10]) false = Except.ok ([10]) ∧
    ([10] : List Int) = [10] :=
  ⟨by rfl, (check_valid_user_ids_spec realmA ([10]) false).1 ([10]) (by rfl)⟩

/-- C4: `upload_file_backend` raises the bad-request errors on zero or
several files, raises the size-exceeded error when the single file is
strictly larger than `MAX_FILE_UPLOAD_SIZE` MiB, and otherwise, once the
quota check passes, returns a success response carrying the locator. -/
theorem upload_file_backend_spec (env : Env) (files : List UploadedFile) :
    (files.length = 0 →
      upload_file_backend env files = .error ("You must specify a file to upload")) ∧
    (2 ≤ files.length →
      upload_file_backend env files = .error ("You may only upload one file at a time")) ∧
    (∀ f, files = [f] →
      (env.maxFileUploadSize * 1024 * 1024 < f.size →
        upload_file_backend env files = .error (sizeLimitMsg env)) ∧
      (f.size ≤ env.maxFileUploadSize * 1024 * 1024 →
        env.checkUploadWithinQuota f.size = .ok () →
        upload_file_backend env files =
          .success (env.uploadMessageImageFromRequest f.size))) := by
  refine ⟨?_, ?_, ?_⟩
  · intro h
    simp [upload_file_backend, h]
  · intro h
    have h0 : ¬ files.length = 0 := by omega
    have h1 : ¬ files.length = 1 := by omega
    simp [upload_file_backend, h0, h1]
  · rintro f rfl
    constructor
    · intro hs
      simp [upload_file_backend, hs]
    · intro hs hq
      have hn : ¬ env.maxFileUploadSize * 1024 * 1024 < f.size := by omega
      simp [upload_file_backend, hn, hq]

/-- Witness for C4 on `envLocal` (limit 25 MiB): two empty files are
rejected, one oversized file hits the size error, and a small file
uploads successfully. -/
theorem upload_file_backend_spec_witness :
    upload_file_backend envLocal [] = .error ("You must specify a file to upload") ∧
    upload_file_backend envLocal [⟨1⟩, ⟨2⟩] =
      .error ("You may only upload one file at a time") ∧
    upload_file_backend envLocal [⟨26214401⟩] = .error (sizeLimitMsg envLocal) ∧
    upload_file_backend envLocal [⟨4⟩] =
      .success (envLocal.uploadMessageImageFromRequest 4) := by
  refine ⟨?_, ?_, ?_, ?_⟩
  · exact (upload_file_backend_spec envLocal []).1 rfl
  · exact (upload_file_backend_spec envLocal [⟨1⟩, ⟨2⟩]).2.1 (by decide)
  · exact ((upload_file_backend_spec envLocal [⟨26214401⟩]).2.2 ⟨26214401⟩ rfl).1 (by decide)
  · exact ((upload_file_backend_spec envLocal [⟨4⟩]).2.2 ⟨4⟩ rfl).2 (by decide) (by rfl)

/-- C9: the per-file size limit is strict: a file of exactly
`MAX_FILE_UPLOAD_SIZE * 1024 * 1024` bytes passes the size check (the
request proceeds to the quota check), and only a strictly larger file
yields the size-exceeded error. -/
theorem upload_size_limit_strict (env : Env) (f : UploadedFile) :
    (f.size = env.maxFileUploadSize * 1024 * 1024 →
      upload_file_backend env [f] =
        (match env.checkUploadWithinQuota f.size with
         | .ok _ => .success (env.uploadMessageImageFromRequest f.size)
         | .error e => .error e)) ∧
    (env.maxFileUploadSize * 1024 * 1024 < f.size →
      upload_file_backend env [f] = .error (sizeLimitMsg env)) := by
  constructor
  · intro h
    have hn : ¬ env.maxFileUploadSize * 1024 * 1024 < f.size := by omega
    cases hq : env.checkUploadWithinQuota f.size <;>
      simp [upload_file_backend, hn, hq]
  · intro h
    simp [upload_file_backend, h]

/-- Witness for C9 on `envLocal` (limit 25 MiB = 26214400 bytes): the
boundary size is accepted, one more byte is rejected. -/
theorem upload_size_limit_strict_witness :
    upload_file_backend envLocal [⟨26214400⟩] =
      .success (envLocal.uploadMessageImageFromRequest 26214400) ∧
    upload_file_backend envLocal [⟨26214401⟩] = .error (sizeLimitMsg envLocal) := by
  constructor
  · exact ((upload_size_limit_strict envLocal ⟨26214400⟩).1 (by decide)).trans rfl
  · exact (upload_size_limit_strict envLocal ⟨26214401⟩).2 (by decide)

/-- C1: `serve_file` resolves the tenant, then the authorization check
has exactly three outcomes: unknown path (`None`) gives not-found, known
but forbidden (`False`) gives forbidden, and allowed (`True`) proceeds to
backend dispatch — local backend when `LOCAL_UPLOADS_DIR` is set, the
object-storage backend otherwise. -/
theorem serve_file_auth_dispatch (env : Env) (realm_id_str filename : String)
    (url_only download : Bool) :
    (env.validateAttachmentRequest (realm_id_str ++ "/" ++ filename) = none →
      serve_file env realm_id_str filename url_only download =
        .notFound ("<p>File not found.</p>")) ∧
    (env.validateAttachmentRequest (realm_id_str ++ "/" ++ filename) = some false →
      serve_file env realm_id_str filename url_only download =
        .forbidden ("<p>You are not authorized to view this file.</p>")) ∧
    (env.validateAttachmentRequest (realm_id_str ++ "/" ++ filename) = some true →
      serve_file env realm_id_str filename url_only download =
        (if env.localUploadsDir.isSome then
          serve_local env (realm_id_str ++ "/" ++ filename) url_only download
         else
          serve_s3 env (realm_id_str ++ "/" ++ filename) url_only download)) := by
  refine ⟨?_, ?_, ?_⟩ <;> intro h <;> simp [serve_file, h]

/-- Witness for C1 on `envLocal`: the three authorization outcomes and
the local-backend dispatch, at concrete paths. -/
theorem serve_file_auth_dispatch_witness :
    serve_file envLocal ("9") ("nope.txt") false false =
      ServeResult.notFound ("<p>File not found.</p>") ∧
    serve_file envLocal ("2") ("secret.txt") false false =
      ServeResult.forbidden ("<p>You are not authorized to view this file.</p>") ∧
    serve_file envLocal ("2") ("a.txt") false false =
      (if envLocal.localUploadsDir.isSome then
        serve_local envLocal ("2" ++ "/" ++ "a.txt") false false
       else
        serve_s3 envLocal ("2" ++ "/" ++ "a.txt") false false) := by
  refine ⟨?_, ?_, ?_⟩
  · exact (serve_file_auth_dispatch envLocal ("9") ("nope.txt") false false).1 (by rfl)
  · exact (serve_file_auth_dispatch envLocal ("2") ("secret.txt") false false).2.1 (by rfl)
  · exact (serve_file_auth_dispatch envLocal ("2") ("a.txt") false false).2.2 (by rfl)

/-- C5: `serve_local_file_unauthed` raises the invalid-token error when
the token does not resolve, raises the invalid-filename error when the
trailing path segment of the resolved path id differs from the requested
filename, and otherwise serves the resolved path via the local backend. -/
theorem serve_local_file_unauthed_spec (env : Env) (token filename : String) :
    (env.getLocalFilePathIdFromToken token = none →
      serve_local_file_unauthed env token filename = .error ("Invalid token")) ∧
    (∀ path_id, env.getLocalFilePathIdFromToken token = some path_id →
      (lastStr (splitOnChar '/' path_id.data) ≠ filename →
        serve_local_file_unauthed env token filename = .error ("Invalid filename")) ∧
      (lastStr (splitOnChar '/' path_id.data) = filename →
        serve_local_file_unauthed env token filename =
          .ok (serve_local env path_id false))) := by
  constructor
  · intro h
    simp [serve_local_file_unauthed, h]
  · intro path_id hp
    constructor
    · intro hne
      simp [serve_local_file_unauthed, hp, hne]
    · intro heq
      simp [serve_local_file_unauthed, hp, heq]

/-- Witness for C5 on `envLocal`: token `tok5` resolves to
`5/abc/doc.pdf`; requesting `wrong.pdf` fails with the invalid-filename
error, requesting `doc.pdf` succeeds, and an unknown token fails with the
invalid-token error. -/
theorem serve_local_file_unauthed_spec_witness :
    serve_local_file_unauthed envLocal ("bad") ("doc.pdf") =
      .error ("Invalid token") ∧
    serve_local_file_unauthed envLocal ("tok5") ("wrong.pdf") =
      .error ("Invalid filename") ∧
    serve_local_file_unauthed envLocal ("tok5") ("doc.pdf") =
      .ok (serve_local envLocal ("5/abc/doc.pdf") false) := by
  refine ⟨?_, ?_, ?_⟩
  · exact (serve_local_file_unauthed_spec envLocal ("bad") ("doc.pdf")).1 (by rfl)
  · exact ((serve_local_file_unauthed_spec envLocal ("tok5") ("wrong.pdf")).2
      ("5/abc/doc.pdf") (by rfl)).1 (by decide)
  · exact ((serve_local_file_unauthed_spec envLocal ("tok5") ("doc.pdf")).2
      ("5/abc/doc.pdf") (by rfl)).2 (by decide)

/-- The header list of the non-development local-backend response:
exactly `X-Accel-Redirect`, `Content-Disposition` and `Cache-Control`,
with no `Content-Type` (deleted so the proxy derives it). -/
theorem nginx_headers_eq (ip url : String) (att : Bool) :
    patch_cache_control (patch_disposition_header (internal_nginx_redirect ip) url att) =
      [("X-Accel-Redirect", ip),
       ("Content-Disposition",
         (if att then "attachment" else "inline") ++ "; " ++
           dispositionFileExpr (basename (urlparsePath url))),
       ("Cache-Control", "private, immutable")] := by
  simp [patch_cache_control, patch_disposition_header, internal_nginx_redirect,
    setHeader, delHeader]

/-- C6: the local backend returns not-found when the path id does not
resolve; returns a JSON success body with a freshly generated access URL
when `url_only` is set; and otherwise serves the file with attachment
disposition exactly when the download flag is set or the guessed MIME
type is not in the inline allowlist — streamed directly in development
mode, and as an internal redirect whose reconstructed
`Content-Disposition` header carries that disposition otherwise. -/
theorem serve_local_spec (env : Env) (path_id : String) (url_only download : Bool) :
    (env.getLocalFilePath path_id = none →
      serve_local env path_id url_only download =
        .notFound ("<p>File not found</p>")) ∧
    (∀ p, env.getLocalFilePath path_id = some p → url_only = true →
      serve_local env path_id url_only download =
        .jsonSuccess [("url", env.generateUnauthedFileAccessUrl path_id)]) ∧
    (∀ p, env.getLocalFilePath path_id = some p → url_only = false →
      (env.development = true →
        serve_local env path_id url_only download =
          .fileResponse p
            (download || !(optMemList (env.guessType p) env.inlineMimeTypes))
            (patch_cache_control [])) ∧
      (env.development = false →
        ∃ hs, serve_local env path_id url_only download = .response hs ∧
          lookupHeader hs ("Content-Disposition") =
            some ((if download || !(optMemList (env.guessType p) env.inlineMimeTypes)
                   then "attachment" else "inline") ++ "; " ++
              dispositionFileExpr (basename (urlparsePath p))))) := by
  refine ⟨?_, ?_, ?_⟩
  · intro h
    simp [serve_local, h]
  · intro p hp hu
    simp [serve_local, hp, hu]
  · intro p hp hu
    constructor
    · intro hdev
      simp [serve_local, hp, hu, hdev]
    · intro hdev
      have hserve : serve_local env path_id url_only download =
          .response (patch_cache_control (patch_disposition_header
            (internal_nginx_redirect (percentQuote ("/internal/uploads/" ++ path_id)))
            p (download || !(optMemList (env.guessType p) env.inlineMimeTypes)))) := by
        simp [serve_local, hp, hu, hdev]
      rw [nginx_headers_eq] at hserve
      exact ⟨_, hserve, by simp [lookupHeader]⟩

/-- Witness for C6 on `envLocal` (and its development-mode variant): the
three branches at concrete inputs. -/
theorem serve_local_spec_witness :
    envLocal.getLocalFilePath ("9/none.txt") = none ∧
    serve_local envLocal ("9/none.txt") false false =
      ServeResult.notFound ("<p>File not found</p>") ∧
    serve_local envLocal ("2/a.txt") true false =
      ServeResult.jsonSuccess
        [("url", envLocal.generateUnauthedFileAccessUrl ("2/a.txt"))] ∧
    serve_local { envLocal with development := true } ("2/a.txt") false true =
      ServeResult.fileResponse ("/home/zulip/uploads/files/2/a.txt") true
        (patch_cache_control []) := by
  refine ⟨by rfl, ?_, ?_, ?_⟩
  · exact (serve_local_spec envLocal ("9/none.txt") false false).1 (by rfl)
  · exact (serve_local_spec envLocal ("2/a.txt") true false).2.1
      ("/home/zulip/uploads/files/2/a.txt") (by rfl) rfl
  · have h := ((serve_local_spec { envLocal with development := true }
      ("2/a.txt") false true).2.2
      ("/home/zulip/uploads/files/2/a.txt") (by rfl) rfl).1 (by rfl)
    simpa using h

/-- C8: every internal-redirect response of the local backend in
non-development mode has `X-Accel-Redirect` set to the percent-quoted
internal path, no `Content-Type` header, `Cache-Control: private,
immutable`, and a `Content-Disposition` header. -/
theorem internal_redirect_headers (env : Env) (path_id p : String) (download : Bool) :
    env.development = false → env.getLocalFilePath path_id = some p →
    ∃ hs, serve_local env path_id false download = .response hs ∧
      lookupHeader hs ("X-Accel-Redirect") =
        some (percentQuote ("/internal/uploads/" ++ path_id)) ∧
      lookupHeader hs ("Content-Type") = none ∧
      lookupHeader hs ("Cache-Control") = some ("private, immutable") ∧
      (lookupHeader hs ("Content-Disposition")).isSome = true := by
  intro hdev hp
  have hserve : serve_local env path_id false download =
      .response (patch_cache_control (patch_disposition_header
        (internal_nginx_redirect (percentQuote ("/internal/uploads/" ++ path_id)))
        p (download || !(optMemList (env.guessType p) env.inlineMimeTypes)))) := by
    simp [serve_local, hp, hdev]
  rw [nginx_headers_eq] at hserve
  exact ⟨_, hserve, by simp [lookupHeader], by simp [lookupHeader],
    by simp [lookupHeader], by simp [lookupHeader]⟩

/-- Witness for C8 on `envLocal` at path id `2/a.txt`. -/
theorem internal_redirect_headers_witness :
    ∃ hs, serve_local envLocal ("2/a.txt") false false = .response hs ∧
      lookupHeader hs ("X-Accel-Redirect") =
        some (percentQuote ("/internal/uploads/" ++ "2/a.txt")) ∧
      lookupHeader hs ("Content-Type") = none ∧
      lookupHeader hs ("Cache-Control") = some ("private, immutable") ∧
      (lookupHeader hs ("Content-Disposition")).isSome = true :=
  internal_redirect_headers envLocal ("2/a.txt")
    ("/home/zulip/uploads/files/2/a.txt") false (by rfl) (by rfl)

/-- The map `replaceCharList` distributes over list append. -/
theorem replaceCharList_append (c : Char) (r : String) (l1 l2 : List Char) :
    replaceCharList c r (l1 ++ l2) =
      replaceCharList c r l1 ++ replaceCharList c r l2 := by
  induction l1 with
  | nil => simp [replaceCharList]
  | cons x xs ih => simp [replaceCharList, ih, String.append_assoc]

/-- The source's two sequential replaces (backslashes doubled first, then
quotes backslash-escaped) coincide with the single-pass escape. -/
theorem replace_twice_eq_escape (l : List Char) :
    replaceCharList '\"' ("\\\"") ((replaceCharList '\\' ("\\\\") l).data) =
      escapeChars l := by
  induction l with
  | nil => rfl
  | cons x xs ih =>
    show replaceCharList '\"' ("\\\"")
        (((if x = '\\' then ("\\\\" : String) else String.singleton x) ++
          replaceCharList '\\' ("\\\\") xs).data) = _
    rw [String.data_append, replaceCharList_append, ih]
    show replaceCharList '\"' ("\\\"")
        ((if x = '\\' then ("\\\\" : String) else String.singleton x).data) ++
        escapeChars xs = escChar x ++ escapeChars xs
    congr 1
    by_cases hb : x = '\\'
    · subst hb
      decide
    · rw [if_neg hb]
      by_cases hq : x = '\"'
      · subst hq
        decide
      · show replaceCharList '\"' ("\\\"") [x] = escChar x
        simp [replaceCharList, escChar, hb, hq]

/-- Looking up the key just set by `setHeader` returns the new value. -/
theorem lookupHeader_setHeader (hs : Headers) (k v : String) :
    lookupHeader (setHeader hs k v) k = some v := by
  have auxAppend : ∀ l : Headers, l.any (fun e => e.1 == k) = false →
      lookupHeader (l ++ [(k, v)]) k = some v := by
    intro l
    induction l with
    | nil => simp [lookupHeader]
    | cons e es ih =>
      intro h
      simp only [List.any_cons, Bool.or_eq_false_iff] at h
      simp [lookupHeader, List.find?, h.1, ih h.2]
      simpa [lookupHeader] using ih h.2
  have auxMap : ∀ l : Headers, l.any (fun e => e.1 == k) = true →
      lookupHeader (l.map (fun e => if e.1 == k then (k, v) else e)) k = some v := by
    intro l
    induction l with
    | nil => simp
    | cons e es ih =>
      intro h
      by_cases h1 : (e.1 == k) = true
      · simp [lookupHeader, List.find?, h1]
      · simp only [List.any_cons, h1, Bool.false_or] at h
        simpa [lookupHeader, List.find?, h1] using ih h
  unfold setHeader
  by_cases h : hs.any (fun e => e.1 == k) = true
  · simpa [h] using auxMap hs h
  · simp only [Bool.not_eq_true] at h
    simpa [h] using auxAppend hs h

/-- C2: the Content-Disposition reconstruction takes the basename of the
path; a pure-ASCII basename yields `attachment|inline; filename="..."`
with every backslash and double quote backslash-escaped (backslashes
first), a non-ASCII one yields the RFC 8187 `filename*=utf-8''...` form;
in particular `café.pdf` and `a"b.txt` give the claimed headers. -/
theorem content_disposition_reconstruction :
    (∀ (hs : Headers) (url : String) (att : Bool),
      lookupHeader (patch_disposition_header hs url att) ("Content-Disposition") =
        some ((if att then "attachment" else "inline") ++ "; " ++
          (if isPureAscii (basename (urlparsePath url)) then
            "filename=\"" ++ escapeChars (basename (urlparsePath url)).data ++ "\""
           else
            "filename*=utf-8" ++ squote ++ squote ++
              percentQuote (basename (urlparsePath url))))) ∧
    lookupHeader (patch_disposition_header [] ("café.pdf") true) ("Content-Disposition") =
      some ("attachment; filename*=utf-8" ++ squote ++ squote ++ "caf%C3%A9.pdf") ∧
    lookupHeader (patch_disposition_header [] ("a\"b.txt") true) ("Content-Disposition") =
      some ("attachment; filename=\"a\\\"b.txt\"") := by
  refine ⟨?_, ?_, ?_⟩
  · intro hs url att
    simp only [patch_disposition_header, dispositionFileExpr, replaceChar]
    rw [lookupHeader_setHeader, replace_twice_eq_escape]
  · decide
  · decide
